import Mathlib

/-!
Shallow embedding of the crossmint megaverse provisioning scripts
(`phase_one.py`, `phase_two.py`) and proofs about them.

Modelling choices.  Coordinates are `Int` (Python integers; the
counter-diagonal column `grid_size - 1 - i` can be negative for small
grids).  Retry delays are `ℚ` (the Python floats involved, `1.0 * 2**k`,
are exact binary rationals).  Python strings are modelled through their
character lists, since the goal-map grammar only needs `endswith`,
`split("_")[0]` and `lower`.  The HTTP layer is abstracted by an oracle
`Nat → Option Response` giving the outcome of each numbered attempt of one
logical request: `none` models a raised
`requests.exceptions.RequestException` (connection failure, timeout, or
the non-2xx error raised by `raise_for_status`), `some r` a response that
passes the `try` block.  `time.sleep` calls are recorded in a trace.
-/

/-- Embeds the `Position` dataclass of both phase files: an immutable
(row, column) pair compared by value. -/
structure Position where
  row : Int
  column : Int
deriving DecidableEq, Repr

namespace Megaverse

/-- Embeds Python `s.endswith(suffix)` on the character list of `s`. -/
def py_endswith (s suffix : String) : Bool :=
  suffix.data.isSuffixOf s.data

/-- Embeds Python `s.split("_")[0]`: the part of `s` before the first
underscore (the whole string when no underscore occurs, as for Python,
whose `split` always returns a non-empty list). -/
def py_split_underscore_head (s : String) : String :=
  ⟨s.data.takeWhile (fun c => c ≠ '_')⟩

/-- Embeds Python `s.lower()` for the ASCII tokens of the goal map. -/
def py_lower (s : String) : String :=
  ⟨s.data.map Char.toLower⟩

/-- Embeds `MegaverseCreator._is_valid_position` (phase_one.py:90-94):
`0 <= position.row < self.grid_size and 0 <= position.column < self.grid_size`. -/
def is_valid_position (grid_size : Int) (position : Position) : Bool :=
  decide (0 ≤ position.row) && decide (position.row < grid_size) &&
  decide (0 ≤ position.column) && decide (position.column < grid_size)

/-- Embeds `MegaverseCreator._generate_x_shape_positions` (phase_one.py:96-107):
`for i in range(2, 9)` append `Position(row=i, column=i)` then
`Position(row=i, column=self.grid_size - 1 - i)`.  The loop range is the
fixed `range(2, 9)`, independent of `grid_size`. -/
def generate_x_shape_positions (grid_size : Int) : List Position :=
  (List.range' 2 7).foldl
    (fun positions i =>
      positions ++ [⟨(i : Int), (i : Int)⟩, ⟨(i : Int), grid_size - 1 - (i : Int)⟩])
    []

/-- Embeds the `for position in positions` loop of
`MegaverseCreator.create_x_shape` (phase_one.py:113-124): invalid positions
are skipped with a warning; for a valid position the call
`self.api.create_polyanet(position)` is issued (a POST to `/polyanets`) and
its boolean outcome, given here by the oracle `create_success`, is only
logged — both branches fall through to the pacing sleep and the next
iteration, so no outcome stops the loop.  The returned list records each
issued create call with its outcome, in order. -/
def create_x_shape_loop (grid_size : Int) (create_success : Position → Bool) :
    List Position → List (Position × Bool)
  | [] => []
  | position :: rest =>
    if is_valid_position grid_size position then
      (position, create_success position) :: create_x_shape_loop grid_size create_success rest
    else
      create_x_shape_loop grid_size create_success rest

/-- Embeds `MegaverseCreator.create_x_shape` (phase_one.py:109-124): generate
the X-shape positions, then run the create loop over them. -/
def create_x_shape (grid_size : Int) (create_success : Position → Bool) :
    List (Position × Bool) :=
  create_x_shape_loop grid_size create_success (generate_x_shape_positions grid_size)

/-- Positions of the create-Polyanet calls issued by `create_x_shape`. -/
def x_shape_issued (grid_size : Int) (create_success : Position → Bool) : List Position :=
  (create_x_shape grid_size create_success).map Prod.fst

/-- Body of an HTTP response, as far as `get_goal_map` inspects it:
`malformed` models a body on which `response.json()` raises,
`jsonNonObject` a JSON body that is not an object (so `.get` raises),
`jsonObject goal` an object whose optional `"goal"` field holds a grid of
string tokens. -/
inductive ResponseBody where
  | malformed : ResponseBody
  | jsonNonObject : ResponseBody
  | jsonObject : Option (List (List String)) → ResponseBody
deriving DecidableEq, Repr

/-- An HTTP response as consumed by the scripts: a status code and a body. -/
structure Response where
  status_code : Nat
  body : ResponseBody
deriving DecidableEq, Repr

/-- Trace of one `_make_request` execution: the returned value (`none` for
the fall-through `return None` / `return False` after exhaustion), the
number of attempts performed, and the argument of each `time.sleep` call
in order. -/
structure RequestTrace where
  result : Option Response
  attempts : Nat
  sleeps : List ℚ
deriving DecidableEq, Repr

/-- Embeds the `for attempt in range(max_retries)` loop of
`MegaverseAPI._make_request` (phase_one.py:53-67, phase_two.py:74-88),
parameterised by the list of attempt indices still to run.  A successful
attempt returns at once with no further sleep; a failed attempt sleeps
`retry_delay * 2 ** attempt` when `attempt < max_retries - 1` and
continues. -/
def request_attempts (oracle : Nat → Option Response) (max_retries : Nat)
    (retry_delay : ℚ) : List Nat → RequestTrace
  | [] => { result := none, attempts := 0, sleeps := [] }
  | attempt :: rest =>
    match oracle attempt with
    | some response => { result := some response, attempts := 1, sleeps := [] }
    | none =>
      let tail := request_attempts oracle max_retries retry_delay rest
      { result := tail.result
        attempts := tail.attempts + 1
        sleeps := (if attempt < max_retries - 1 then [retry_delay * 2 ^ attempt] else [])
          ++ tail.sleeps }

/-- Embeds `MegaverseAPI._make_request` of phase_two.py (lines 62-90),
which returns the response on success and `None` on exhaustion.  The
attempt loop runs over `range(max_retries)`. -/
def make_request (oracle : Nat → Option Response) (max_retries : Nat)
    (retry_delay : ℚ) : RequestTrace :=
  request_attempts oracle max_retries retry_delay (List.range max_retries)

/-- Embeds `MegaverseAPI._make_request` of phase_one.py (lines 41-69), which
is the same loop but returns `True` on success and `False` on exhaustion. -/
def make_request_bool (oracle : Nat → Option Response) (max_retries : Nat)
    (retry_delay : ℚ) : Bool :=
  (make_request oracle max_retries retry_delay).result.isSome

/-- A JSON-serializable payload value: the payloads of the scripts hold
integers (row, column) and strings (color, direction, candidateId). -/
inductive JsonValue where
  | int : Int → JsonValue
  | str : String → JsonValue
deriving DecidableEq, Repr

/-- Embeds `Position.to_dict` (both files): `{"row": ..., "column": ...}`,
as an ordered key/value list (Python dicts preserve insertion order). -/
def to_dict (p : Position) : List (String × JsonValue) :=
  [("row", .int p.row), ("column", .int p.column)]

/-- Embeds the `AstralObject` class hierarchy of phase_two.py:
`Polyanet(position)`, `Soloon(position, color)`, `Cometh(position,
direction)`, as a tagged union. -/
inductive AstralObject where
  | polyanet : Position → AstralObject
  | soloon : Position → String → AstralObject
  | cometh : Position → String → AstralObject
deriving DecidableEq, Repr

/-- Embeds `to_api_params` (phase_two.py:26-49): the base class contributes
`position.to_dict()`; `Soloon` appends its `color`, `Cometh` its
`direction`. -/
def to_api_params : AstralObject → List (String × JsonValue)
  | .polyanet position => to_dict position
  | .soloon position color => to_dict position ++ [("color", .str color)]
  | .cometh position direction => to_dict position ++ [("direction", .str direction)]

/-- Embeds `obj.__class__.__name__` for the three concrete classes. -/
def class_name : AstralObject → String
  | .polyanet _ => "Polyanet"
  | .soloon _ _ => "Soloon"
  | .cometh _ _ => "Cometh"

/-- Embeds the `endpoint_map` dict of `MegaverseAPI.create_object`
(phase_two.py:93-97). -/
def endpoint_map : List (String × String) :=
  [("Polyanet", "/polyanets"), ("Soloon", "/soloons"), ("Cometh", "/comeths")]

/-- Embeds `data["candidateId"] = self.candidate_id` inside `_make_request`
(phase_one.py:51, phase_two.py:72): the payload keys produced by
`to_api_params` never include `candidateId`, so the dict assignment appends
a fresh key at the end. -/
def with_candidate_id (candidate_id : String) (data : List (String × JsonValue)) :
    List (String × JsonValue) :=
  data ++ [("candidateId", .str candidate_id)]

/-- An HTTP request as assembled by `_make_request`: endpoint path, method,
and the JSON payload after candidate-id injection. -/
structure ApiRequest where
  endpoint : String
  method : String
  data : List (String × JsonValue)
deriving DecidableEq, Repr

/-- Embeds the request assembled by `MegaverseAPI.create_object`
(phase_two.py:92-102): endpoint looked up by class name (`none` models the
`KeyError` a dict lookup would raise for an unknown class, which cannot
occur for the three variants), method `POST`, payload
`obj.to_api_params()` with the candidate id injected by `_make_request`. -/
def create_object_request (candidate_id : String) (obj : AstralObject) :
    Option ApiRequest :=
  (endpoint_map.lookup (class_name obj)).map
    (fun endpoint =>
      { endpoint := endpoint
        method := "POST"
        data := with_candidate_id candidate_id (to_api_params obj) })

/-- Embeds the request assembled by `MegaverseAPI.create_polyanet`
(phase_one.py:71-75): `POST /polyanets` with `position.to_dict()` plus the
injected candidate id. -/
def create_polyanet_request (candidate_id : String) (position : Position) :
    ApiRequest :=
  { endpoint := "/polyanets"
    method := "POST"
    data := with_candidate_id candidate_id (to_dict position) }

/-- Embeds the cell dispatch in the inner loop of
`MegaverseCreator.parse_goal_map` (phase_two.py:126-133): appends to
`objects` the object the cell produces, or leaves `objects` unchanged. -/
def parse_cell_action (objects : List AstralObject) (position : Position)
    (cell : String) : List AstralObject :=
  if cell = "POLYANET" then
    objects ++ [.polyanet position]
  else if py_endswith cell "SOLOON" then
    objects ++ [.soloon position (py_lower (py_split_underscore_head cell))]
  else if py_endswith cell "COMETH" then
    objects ++ [.cometh position (py_lower (py_split_underscore_head cell))]
  else
    objects

/-- Embeds `MegaverseCreator.parse_goal_map` (phase_two.py:119-134): the
nested `enumerate` loops over rows and cells, accumulating `objects`. -/
def parse_goal_map (goal_map : List (List String)) : List AstralObject :=
  goal_map.enum.foldl
    (fun objects row =>
      row.2.enum.foldl
        (fun objects cell =>
          parse_cell_action objects ⟨(row.1 : Int), (cell.1 : Int)⟩ cell.2)
        objects)
    []

/-- Exceptions observable at the boundaries modelled here. -/
inductive PyError where
  | typeError : String → PyError
  | jsonDecodeError : PyError
  | attributeError : PyError
deriving DecidableEq, Repr

/-- Embeds Python argument binding for `MegaverseAPI._make_request` of
phase_two.py: its `data` parameter has no default value, so a call that
does not supply `data` raises `TypeError` during binding, before the body
runs; a call that does supply it runs the retry loop. -/
def call_make_request (oracle : Nat → Option Response)
    (data_argument : Option (List (String × JsonValue)))
    (max_retries : Nat) (retry_delay : ℚ) : Except PyError RequestTrace :=
  match data_argument with
  | none =>
    .error (.typeError "_make_request() missing 1 required positional argument: data")
  | some _ => .ok (make_request oracle max_retries retry_delay)

/-- Embeds `MegaverseAPI.get_goal_map` (phase_two.py:104-112).  The source
calls `self._make_request(endpoint=endpoint, method="GET")` — no `data`
argument, modelled by passing `none` — so the call raises `TypeError`.
The rest of the body (`if response and response.status_code == 200: return
response.json().get("goal", [])` else `return []`) is translated faithfully
below but is unreachable in every execution. -/
def get_goal_map (oracle : Nat → Option Response) :
    Except PyError (List (List String)) :=
  match call_make_request oracle none 3 1 with
  | .error e => .error e
  | .ok trace =>
    match trace.result with
    | some response =>
      if response.status_code = 200 then
        match response.body with
        | .malformed => .error .jsonDecodeError
        | .jsonNonObject => .error .attributeError
        | .jsonObject goal => .ok (goal.getD [])
      else
        .ok []
    | none => .ok []

/-- Embeds the `for obj in objects` loop of
`MegaverseCreator.create_megaverse` (phase_two.py:144-151): every object in
the list gets a `create_object` call; the boolean outcome (oracle
`create_success`) is only logged, and both branches fall through to the
pacing sleep and the next iteration. -/
def create_objects_loop (create_success : AstralObject → Bool) :
    List AstralObject → List (AstralObject × Bool)
  | [] => []
  | obj :: rest => (obj, create_success obj) :: create_objects_loop create_success rest

/-- Result of one `create_megaverse` run: the create mutations issued (with
their outcomes, in order) and how the run ended. -/
structure MegaverseRun where
  issued : List (AstralObject × Bool)
  outcome : Except PyError Unit
deriving Repr

/-- Embeds `MegaverseCreator.create_megaverse` (phase_two.py:136-151):
fetch the goal map (an uncaught exception propagates and ends the run);
`if not goal_map: return` aborts on an empty map; otherwise parse and run
the create loop. -/
def create_megaverse (oracle : Nat → Option Response)
    (create_success : AstralObject → Bool) : MegaverseRun :=
  match get_goal_map oracle with
  | .error e => { issued := [], outcome := .error e }
  | .ok goal_map =>
    if goal_map = [] then
      { issued := [], outcome := .ok () }
    else
      { issued := create_objects_loop create_success (parse_goal_map goal_map)
        outcome := .ok () }

end Megaverse

namespace Megaverse

/-- The X-shape generator, with its fixed `range(2, 9)` loop unrolled. -/
lemma generate_x_shape_positions_eq (g : Int) :
    generate_x_shape_positions g =
      [⟨2, 2⟩, ⟨2, g - 1 - 2⟩, ⟨3, 3⟩, ⟨3, g - 1 - 3⟩, ⟨4, 4⟩, ⟨4, g - 1 - 4⟩,
       ⟨5, 5⟩, ⟨5, g - 1 - 5⟩, ⟨6, 6⟩, ⟨6, g - 1 - 6⟩, ⟨7, 7⟩, ⟨7, g - 1 - 7⟩,
       ⟨8, 8⟩, ⟨8, g - 1 - 8⟩] := rfl

/-- C8: for every position, `is_valid_position` returns true exactly when
both coordinates lie in `[0, grid_size)`; any negative coordinate or one
equal to or exceeding `grid_size` makes it return false. -/
theorem c8_is_valid_position_iff (grid_size : Int) (position : Position) :
    is_valid_position grid_size position = true ↔
      0 ≤ position.row ∧ position.row < grid_size ∧
      0 ≤ position.column ∧ position.column < grid_size := by
  simp [is_valid_position, and_assoc]

/-- C2 counterexample: at grid size 6 the generator still runs its fixed
index range 2..8, producing 14 positions (not `2*(6-4) = 4`) and containing
the position (8, -3), whose column is negative. -/
theorem c2_counterexample_fixed_range :
    (generate_x_shape_positions 6).length ≠ 2 * (6 - 4) ∧
    (⟨8, -3⟩ : Position) ∈ generate_x_shape_positions 6 ∧
    ¬ (0 ≤ (⟨8, -3⟩ : Position).column) := by
  refine ⟨?_, ?_, ?_⟩ <;> decide

/-- C2 (amended): for every grid size g ≥ 9 the X-pattern generator yields
exactly 14 positions — one main-diagonal position (i, i) and one
counter-diagonal position (i, g-1-i) for each i in the fixed range 2..8 —
each coordinate satisfying 0 ≤ coord < g, and the two positions for an
index coincide iff i = g-1-i. -/
theorem c2_amended_x_pattern (g : Int) (hg : 9 ≤ g) :
    (generate_x_shape_positions g).length = 14 ∧
    (∀ i : Int, 2 ≤ i → i ≤ 8 →
      (⟨i, i⟩ : Position) ∈ generate_x_shape_positions g ∧
      (⟨i, g - 1 - i⟩ : Position) ∈ generate_x_shape_positions g) ∧
    (∀ p ∈ generate_x_shape_positions g,
      0 ≤ p.row ∧ p.row < g ∧ 0 ≤ p.column ∧ p.column < g) ∧
    (∀ i : Int, (⟨i, i⟩ : Position) = ⟨i, g - 1 - i⟩ ↔ i = g - 1 - i) := by
  rw [generate_x_shape_positions_eq]
  refine ⟨rfl, ?_, ?_, ?_⟩
  · intro i h2 h8
    interval_cases i <;> simp [List.mem_cons]
  · intro p hp
    fin_cases hp <;> simp <;> omega
  · intro i
    simp [Position.mk.injEq]

/-- Witness for the amended C2 theorem, at grid size 11. -/
theorem c2_amended_x_pattern_witness :
    (9 : Int) ≤ 11 ∧
    ((generate_x_shape_positions 11).length = 14 ∧
     (∀ i : Int, 2 ≤ i → i ≤ 8 →
       (⟨i, i⟩ : Position) ∈ generate_x_shape_positions 11 ∧
       (⟨i, 11 - 1 - i⟩ : Position) ∈ generate_x_shape_positions 11) ∧
     (∀ p ∈ generate_x_shape_positions 11,
       0 ≤ p.row ∧ p.row < 11 ∧ 0 ≤ p.column ∧ p.column < 11) ∧
     (∀ i : Int, (⟨i, i⟩ : Position) = ⟨i, 11 - 1 - i⟩ ↔ i = 11 - 1 - i)) :=
  ⟨by norm_num, c2_amended_x_pattern 11 (by norm_num)⟩

end Megaverse

namespace Megaverse

/-- The create loop of `create_x_shape` issues exactly the valid generated
positions, in order, whatever the per-item outcomes are. -/
lemma create_x_shape_loop_map_fst (g : Int) (s : Position → Bool) (l : List Position) :
    (create_x_shape_loop g s l).map Prod.fst = l.filter (is_valid_position g) := by
  induction l with
  | nil => rfl
  | cons p rest ih =>
    by_cases h : is_valid_position g p
    · simp [create_x_shape_loop, h, ih, List.filter_cons]
    · simp [create_x_shape_loop, h, ih, List.filter_cons]

/-- C4: at grid size 11 `create_x_shape` issues exactly 14 create-Polyanet
calls, in the order (2,2),(2,8),(3,3),(3,7),...,(8,8),(8,2) — per index the
main-diagonal position first, then the counter-diagonal — keeping only
positions whose coordinates lie in [0, 11); the issued sequence is the same
for every per-item success/failure oracle (no short-circuit), and every
issued call is a POST to `/polyanets`. -/
theorem c4_create_x_shape_calls (create_success : Position → Bool) :
    x_shape_issued 11 create_success =
      [⟨2, 2⟩, ⟨2, 8⟩, ⟨3, 3⟩, ⟨3, 7⟩, ⟨4, 4⟩, ⟨4, 6⟩, ⟨5, 5⟩, ⟨5, 5⟩,
       ⟨6, 6⟩, ⟨6, 4⟩, ⟨7, 7⟩, ⟨7, 3⟩, ⟨8, 8⟩, ⟨8, 2⟩] ∧
    (x_shape_issued 11 create_success).length = 14 ∧
    x_shape_issued 11 create_success =
      (generate_x_shape_positions 11).filter (is_valid_position 11) ∧
    (∀ candidate_id : String, ∀ p ∈ x_shape_issued 11 create_success,
      (create_polyanet_request candidate_id p).endpoint = "/polyanets" ∧
      (create_polyanet_request candidate_id p).method = "POST") := by
  have h : x_shape_issued 11 create_success =
      (generate_x_shape_positions 11).filter (is_valid_position 11) :=
    create_x_shape_loop_map_fst 11 create_success _
  rw [x_shape_issued] at h ⊢
  rw [h]
  refine ⟨by decide, by decide, rfl, ?_⟩
  intro candidate_id p _
  exact ⟨rfl, rfl⟩

/-- C10: at grid size 11 the generated sequence contains the center (5,5)
twice (the index-5 main- and counter-diagonal entries coincide), so the run
issues two create calls for that cell and its 14 issued positions comprise
only 13 distinct cells — for every per-item outcome oracle. -/
theorem c10_center_issued_twice (create_success : Position → Bool) :
    (x_shape_issued 11 create_success).count ⟨5, 5⟩ = 2 ∧
    (x_shape_issued 11 create_success).length = 14 ∧
    (x_shape_issued 11 create_success).dedup.length = 13 := by
  have h : x_shape_issued 11 create_success =
      (generate_x_shape_positions 11).filter (is_valid_position 11) :=
    create_x_shape_loop_map_fst 11 create_success _
  rw [x_shape_issued] at h
  rw [x_shape_issued, h]
  exact ⟨by decide, by decide, by decide⟩

end Megaverse

namespace Megaverse

/-- A run of the attempt loop in which every listed attempt fails: no
result, one attempt per index, and a backoff sleep after every failed
attempt except an attempt numbered `max_retries - 1` or later. -/
lemma request_attempts_all_fail (oracle : Nat → Option Response) (max_retries : Nat)
    (retry_delay : ℚ) (l : List Nat) (h : ∀ k ∈ l, oracle k = none) :
    request_attempts oracle max_retries retry_delay l =
      { result := none
        attempts := l.length
        sleeps := l.flatMap
          (fun k => if k < max_retries - 1 then [retry_delay * 2 ^ k] else []) } := by
  induction l with
  | nil => rfl
  | cons a rest ih =>
    have ha : oracle a = none := h a (List.mem_cons_self a rest)
    have ih' := ih (fun k hk => h k (List.mem_cons_of_mem a hk))
    simp [request_attempts, ha, ih']

/-- A run of the attempt loop whose first listed attempt succeeds: the
response is returned at once, after one attempt and no sleep. -/
lemma request_attempts_success (oracle : Nat → Option Response) (max_retries : Nat)
    (retry_delay : ℚ) (j : Nat) (r : Response) (l : List Nat)
    (hj : oracle j = some r) :
    request_attempts oracle max_retries retry_delay (j :: l) =
      { result := some r, attempts := 1, sleeps := [] } := by
  simp [request_attempts, hj]

/-- Splitting the attempt loop after a run of failed attempts. -/
lemma request_attempts_append (oracle : Nat → Option Response) (max_retries : Nat)
    (retry_delay : ℚ) (l1 l2 : List Nat) (h : ∀ k ∈ l1, oracle k = none) :
    request_attempts oracle max_retries retry_delay (l1 ++ l2) =
      { result := (request_attempts oracle max_retries retry_delay l2).result
        attempts := l1.length + (request_attempts oracle max_retries retry_delay l2).attempts
        sleeps := l1.flatMap
            (fun k => if k < max_retries - 1 then [retry_delay * 2 ^ k] else [])
          ++ (request_attempts oracle max_retries retry_delay l2).sleeps } := by
  induction l1 with
  | nil => simp
  | cons a rest ih =>
    have ha : oracle a = none := h a (List.mem_cons_self a rest)
    have ih' := ih (fun k hk => h k (List.mem_cons_of_mem a hk))
    simp [request_attempts, ha, ih', RequestTrace.mk.injEq, List.append_assoc]
    omega

/-- On a list of indices all below `c`, the backoff guard is always taken. -/
lemma bind_if_lt_map (c : Nat) (f : Nat → ℚ) (l : List Nat) (h : ∀ k ∈ l, k < c) :
    l.flatMap (fun k => if k < c then [f k] else []) = l.map f := by
  induction l with
  | nil => rfl
  | cons a rest ih =>
    have ha : a < c := h a (List.mem_cons_self a rest)
    have ih' := ih (fun k hk => h k (List.mem_cons_of_mem a hk))
    simp [ha, ih']

/-- Decomposing `range max_retries` around a distinguished attempt `j`. -/
lemma range_split_at (j m : Nat) (h : j < m) :
    List.range m = List.range j ++ j :: List.range' (j + 1) (m - j - 1) := by
  have key : List.range' 0 m = List.range' 0 j ++ j :: List.range' (j + 1) (m - j - 1) := by
    conv_lhs => rw [show m = ((m - j - 1) + 1) + j from by omega]
    rw [← List.range'_append_1 0 j ((m - j - 1) + 1), List.range'_succ]
    simp
  simpa [List.range_eq_range'] using key

end Megaverse

namespace Megaverse

/-- An attempt oracle on which every attempt raises a transport error. -/
def always_failing_oracle : Nat → Option Response := fun _ => none

/-- A 2xx response with a well-formed body, for concrete runs. -/
def ok_response : Response := { status_code := 200, body := .jsonObject none }

/-- An attempt oracle failing attempts 0 and 1 and succeeding on attempt 2. -/
def two_failures_then_success : Nat → Option Response :=
  fun attempt => if attempt < 2 then none else some ok_response

/-- C6: when every attempt of a request fails with a transport-level error,
`_make_request` performs exactly `max_retries` attempts and then returns a
failure result — `None` in the phase-two variant, `False` in the phase-one
variant — instead of raising. -/
theorem c6_exhausts_max_retries (oracle : Nat → Option Response) (max_retries : Nat)
    (retry_delay : ℚ) (h : ∀ k, oracle k = none) :
    (make_request oracle max_retries retry_delay).result = none ∧
    (make_request oracle max_retries retry_delay).attempts = max_retries ∧
    make_request_bool oracle max_retries retry_delay = false := by
  have hmain := request_attempts_all_fail oracle max_retries retry_delay
    (List.range max_retries) (fun k _ => h k)
  rw [make_request_bool, make_request, hmain]
  simp

/-- Witness for C6: the always-failing oracle with the default settings
`max_retries = 3`, `retry_delay = 1.0`. -/
theorem c6_exhausts_max_retries_witness :
    (∀ k, always_failing_oracle k = none) ∧
    ((make_request always_failing_oracle 3 1).result = none ∧
     (make_request always_failing_oracle 3 1).attempts = 3 ∧
     make_request_bool always_failing_oracle 3 1 = false) :=
  ⟨fun _ => rfl, c6_exhausts_max_retries always_failing_oracle 3 1 (fun _ => rfl)⟩

/-- C7: in one `_make_request` run whose attempts 0..j-1 fail and whose
attempt j succeeds, the sleeps performed are exactly
`retry_delay * 2^k` for k = 0..j-1, in order (the wait before attempt k+1
is `retry_delay * 2^k`); when instead every attempt fails, the sleeps are
`retry_delay * 2^k` for k = 0..max_retries-2 — none after the final failed
attempt; and a request failing its first two attempts and succeeding on
the third returns that success having slept `retry_delay * 1` then
`retry_delay * 2`, a total of `1*1 + 1*2` at the default
`retry_delay = 1.0`. -/
theorem c7_backoff_schedule (oracle : Nat → Option Response) (max_retries j : Nat)
    (retry_delay : ℚ) (r : Response)
    (h1 : ∀ k, k < j → oracle k = none) (h2 : oracle j = some r)
    (h3 : j < max_retries) :
    (make_request oracle max_retries retry_delay).result = some r ∧
    (make_request oracle max_retries retry_delay).sleeps =
      (List.range j).map (fun k => retry_delay * 2 ^ k) ∧
    (∀ oracle2 : Nat → Option Response, (∀ k, oracle2 k = none) →
      (make_request oracle2 max_retries retry_delay).sleeps =
        (List.range (max_retries - 1)).map (fun k => retry_delay * 2 ^ k)) ∧
    ((make_request two_failures_then_success 3 1).result = some ok_response ∧
     (make_request two_failures_then_success 3 1).sleeps = [1 * 2 ^ 0, 1 * 2 ^ 1] ∧
     (make_request two_failures_then_success 3 1).sleeps.sum = 1 * 1 + 1 * 2) := by
  have hfail : ∀ k ∈ List.range j, oracle k = none :=
    fun k hk => h1 k (List.mem_range.mp hk)
  have happ := request_attempts_append oracle max_retries retry_delay
    (List.range j) (j :: List.range' (j + 1) (max_retries - j - 1)) hfail
  have hsucc := request_attempts_success oracle max_retries retry_delay j r
    (List.range' (j + 1) (max_retries - j - 1)) h2
  have hmr : make_request oracle max_retries retry_delay =
      { result := some r
        attempts := (List.range j).length + 1
        sleeps := (List.range j).flatMap
          (fun k => if k < max_retries - 1 then [retry_delay * 2 ^ k] else []) } := by
    rw [make_request, range_split_at j max_retries h3, happ, hsucc]
    simp
  have hguard : ∀ k ∈ List.range j, k < max_retries - 1 :=
    fun k hk => by have := List.mem_range.mp hk; omega
  have hsleeps : (make_request two_failures_then_success 3 1).sleeps =
      [(1 : ℚ) * 2 ^ 0, 1 * 2 ^ 1] := rfl
  refine ⟨by rw [hmr], ?_, ?_, rfl, rfl, by rw [hsleeps]; norm_num⟩
  · rw [hmr]
    exact bind_if_lt_map (max_retries - 1) _ (List.range j) hguard
  · intro oracle2 h0
    have hmain := request_attempts_all_fail oracle2 max_retries retry_delay
      (List.range max_retries) (fun k _ => h0 k)
    rw [make_request, hmain]
    cases max_retries with
    | zero => rfl
    | succ n =>
      show (List.range (n + 1)).flatMap _ = _
      simp only [Nat.add_sub_cancel]
      rw [List.range_succ, List.flatMap_append]
      rw [bind_if_lt_map n _ (List.range n) (fun k hk => List.mem_range.mp hk)]
      simp

/-- Witness for C7: the fail-fail-succeed oracle at the default settings,
with j = 2 failed attempts before the success. -/
theorem c7_backoff_schedule_witness :
    (∀ k, k < 2 → two_failures_then_success k = none) ∧
    two_failures_then_success 2 = some ok_response ∧
    2 < 3 ∧
    ((make_request two_failures_then_success 3 1).result = some ok_response ∧
     (make_request two_failures_then_success 3 1).sleeps =
       (List.range 2).map (fun k => (1 : ℚ) * 2 ^ k) ∧
     (∀ oracle2 : Nat → Option Response, (∀ k, oracle2 k = none) →
       (make_request oracle2 3 1).sleeps =
         (List.range (3 - 1)).map (fun k => (1 : ℚ) * 2 ^ k)) ∧
     ((make_request two_failures_then_success 3 1).result = some ok_response ∧
      (make_request two_failures_then_success 3 1).sleeps = [1 * 2 ^ 0, 1 * 2 ^ 1] ∧
      (make_request two_failures_then_success 3 1).sleeps.sum = 1 * 1 + 1 * 2)) :=
  ⟨fun k hk => by simp [two_failures_then_success, hk], rfl, by norm_num,
   c7_backoff_schedule two_failures_then_success 3 2 1 ok_response
     (fun k hk => by simp [two_failures_then_success, hk]) rfl (by norm_num)⟩

end Megaverse

namespace Megaverse

/-- C9: serialization is a pure function of the entity's fields plus the
injected candidate identifier — a Polyanet serializes to
`{row, column, candidateId}` sent to `/polyanets`, a Soloon to
`{row, column, color, candidateId}` sent to `/soloons`, and a Cometh to
`{row, column, direction, candidateId}` sent to `/comeths`, for every
entity of each kind. -/
theorem c9_serialization (candidate_id : String) (position : Position)
    (color direction : String) :
    create_object_request candidate_id (.polyanet position) =
      some { endpoint := "/polyanets", method := "POST",
             data := [("row", .int position.row), ("column", .int position.column),
                      ("candidateId", .str candidate_id)] } ∧
    create_object_request candidate_id (.soloon position color) =
      some { endpoint := "/soloons", method := "POST",
             data := [("row", .int position.row), ("column", .int position.column),
                      ("color", .str color), ("candidateId", .str candidate_id)] } ∧
    create_object_request candidate_id (.cometh position direction) =
      some { endpoint := "/comeths", method := "POST",
             data := [("row", .int position.row), ("column", .int position.column),
                      ("direction", .str direction), ("candidateId", .str candidate_id)] } :=
  ⟨rfl, rfl, rfl⟩

/-- The cell grammar as `parse_goal_map` implements it, one cell at a
time: the exact token `"POLYANET"` yields a Polyanet; otherwise any token
ending in `"SOLOON"` yields a Soloon whose color is the lowercased part of
the token before its first underscore; otherwise any token ending in
`"COMETH"` yields a Cometh likewise; every other token yields nothing.
Stated separately from `parse_goal_map` so the loop can be proved to
refine this per-cell grammar. -/
def parse_cell_grammar (position : Position) (cell : String) : Option AstralObject :=
  if cell = "POLYANET" then
    some (.polyanet position)
  else if py_endswith cell "SOLOON" then
    some (.soloon position (py_lower (py_split_underscore_head cell)))
  else if py_endswith cell "COMETH" then
    some (.cometh position (py_lower (py_split_underscore_head cell)))
  else
    none

/-- Row-major rendering of a goal map through the per-cell grammar. -/
def parse_goal_map_grammar (goal_map : List (List String)) : List AstralObject :=
  goal_map.enum.flatMap
    (fun row => row.2.enum.filterMap
      (fun cell => parse_cell_grammar ⟨(row.1 : Int), (cell.1 : Int)⟩ cell.2))

/-- One step of the parse loop appends exactly what the grammar yields. -/
lemma parse_cell_action_eq (objects : List AstralObject) (position : Position)
    (cell : String) :
    parse_cell_action objects position cell =
      objects ++ (parse_cell_grammar position cell).toList := by
  unfold parse_cell_action parse_cell_grammar
  split_ifs <;> simp

/-- Folding an accumulate-append step equals appending the flattened map. -/
lemma foldl_append_eq {α β : Type} (f : α → List β) (l : List α) (init : List β) :
    l.foldl (fun acc x => acc ++ f x) init = init ++ l.flatMap f := by
  induction l generalizing init with
  | nil => simp
  | cons x xs ih => simp [ih, List.append_assoc]

/-- `filterMap` through an option-valued function is a `flatMap` of option
contents. -/
lemma filterMap_eq_flatMap_toList {α β : Type} (f : α → Option β) (l : List α) :
    l.filterMap f = l.flatMap (fun x => (f x).toList) := by
  induction l with
  | nil => rfl
  | cons x xs ih => cases h : f x <;> simp [List.filterMap_cons, h, ih]

/-- The nested parse loop refines the row-major per-cell grammar. -/
lemma parse_goal_map_eq_grammar (goal_map : List (List String)) :
    parse_goal_map goal_map = parse_goal_map_grammar goal_map := by
  rw [parse_goal_map, parse_goal_map_grammar]
  have hstep : (fun (objects : List AstralObject) (row : Nat × List String) =>
      row.2.enum.foldl
        (fun objects cell =>
          parse_cell_action objects ⟨(row.1 : Int), (cell.1 : Int)⟩ cell.2)
        objects)
      = fun objects row =>
        objects ++ row.2.enum.filterMap
          (fun cell => parse_cell_grammar ⟨(row.1 : Int), (cell.1 : Int)⟩ cell.2) := by
    funext objects row
    have hcell : (fun (objects : List AstralObject) (cell : Nat × String) =>
        parse_cell_action objects ⟨(row.1 : Int), (cell.1 : Int)⟩ cell.2)
        = fun objects cell =>
          objects ++ (parse_cell_grammar ⟨(row.1 : Int), (cell.1 : Int)⟩ cell.2).toList := by
      funext objects cell
      exact parse_cell_action_eq objects _ cell.2
    rw [hcell, foldl_append_eq, ← filterMap_eq_flatMap_toList]
  rw [hstep, foldl_append_eq]
  simp

/-- C3 counterexample: the bare token `"SOLOON"` is outside the
`<COLOR>_SOLOON` grammar (it has no underscore), yet `parse_goal_map` does
not skip it — it produces a Soloon whose color is `"soloon"`. -/
theorem c3_counterexample_bare_soloon :
    parse_goal_map [["SOLOON"]] = [.soloon ⟨0, 0⟩ "soloon"] ∧
    parse_goal_map [["SOLOON"]] ≠ [] := by
  refine ⟨?_, ?_⟩ <;> decide

/-- C3 (amended): goal-map parsing maps every cell, at the position given
by its row and column index in row-major order, by the implemented
grammar — `"POLYANET"` exactly to a Polyanet; any other token ending in
`"SOLOON"` to a Soloon carrying the lowercased part before the first
underscore (so not only `<COLOR>_SOLOON` tokens); any remaining token
ending in `"COMETH"` to a Cometh likewise; every other token, including
`"SPACE"`, yields no entity rather than a fatal error.  In particular the
spec's example row parses to the three expected entities. -/
theorem c3_amended_goal_map_parsing :
    (∀ goal_map : List (List String),
      parse_goal_map goal_map = parse_goal_map_grammar goal_map) ∧
    parse_goal_map [["POLYANET", "RED_SOLOON", "UP_COMETH", "SPACE"]] =
      [.polyanet ⟨0, 0⟩, .soloon ⟨0, 1⟩ "red", .cometh ⟨0, 2⟩ "up"] :=
  ⟨parse_goal_map_eq_grammar, by decide⟩

/-- C1 (what the code does): every invocation of `get_goal_map` raises
`TypeError` — its call to `_make_request` omits the required `data`
argument — so for no transport outcome does it return a parsed goal map or
an empty map. -/
theorem c1_get_goal_map_always_raises (oracle : Nat → Option Response) :
    get_goal_map oracle =
      .error (.typeError "_make_request() missing 1 required positional argument: data") ∧
    ∀ goal_map : List (List String), get_goal_map oracle ≠ .ok goal_map := by
  refine ⟨rfl, fun goal_map h => ?_⟩
  rw [show get_goal_map oracle =
    .error (.typeError "_make_request() missing 1 required positional argument: data")
    from rfl] at h
  exact Except.noConfusion h

/-- C5 (what the code does): every run of `create_megaverse` ends with the
propagated `TypeError` from `get_goal_map` before examining the goal map;
it issues zero create mutations and never reaches either the empty-map
abort or the per-entity create loop. -/
theorem c5_create_megaverse_never_creates (oracle : Nat → Option Response)
    (create_success : AstralObject → Bool) :
    (create_megaverse oracle create_success).issued = [] ∧
    (create_megaverse oracle create_success).outcome =
      .error (.typeError "_make_request() missing 1 required positional argument: data") :=
  ⟨rfl, rfl⟩

end Megaverse
